import Mathlib

/-!
Verification of the preact-sonner notification engine.

This file shallowly embeds the engine's state and operations:
  * the notification store (`create`, `dismiss`, `showToast`, pub/sub) from `state.ts`,
  * the height tracker (`Heights.offset` and friends) from `heights.tsx`,
  * the per-toast lifecycle pieces of `sonner.tsx` (autoclose timer,
    swipe-end decision, offset freezing on removal),
  * the promise-binding adapter (`promise`) from `state.ts`,
  * the live-iteration semantics of publishing over a JS `Set` of subscribers.

JS numbers are modelled as integers (`Int`): every number the engine
computes with — timestamps from `Date.now()`, millisecond durations,
pixel amounts, counters — is integer-valued in the claims, and every
arithmetic operation the engine performs on them (addition, subtraction,
comparison, `Math.max`, `Math.abs`) is exact on `Int`; the single
division (the swipe velocity) is modelled as an exact comparison in `ℚ`
via casts.  JS truthiness of a number is `x ≠ 0`, of a string is
`s ≠ ""`.  Opaque display payloads
(`ComponentChildren`) are modelled by the `Title` type.  Record fields that
no operation of the engine reads or writes (styling, class names, icons,
event handlers) are elided from the record structures; every field any
modelled operation touches is present.
-/

/-- Identifier of a toast: a JS number or string (`id: number | string`).
JS `===` on such a union is structural equality, a number is never equal
to a string. -/
inductive ToastId where
  | num (n : Int)
  | str (s : String)
deriving DecidableEq

/-- JS truthiness of an identifier value: `0` and `""` are falsy, every
other number or string is truthy. -/
def ToastId.truthy : ToastId → Bool
  | .num n => n ≠ 0
  | .str s => s ≠ ""

/-- Opaque display payload (`titleT` / `ComponentChildren`): either plain
text or a renderable element.  The engine never inspects it. -/
inductive Title where
  | text (s : String)
  | elem
deriving DecidableEq

/-- The `ToastTypes` union from `types.ts`. -/
inductive ToastTypes where
  | normal | action | success | info | warning | error | loading | default
deriving DecidableEq

/-- A stored notification record (`ToastT` from `types.ts`), restricted to
the fields the engine's operations read or write.  `Option` encodes a
field being absent / `undefined`. -/
structure ToastT where
  id : ToastId
  title : Option Title := none
  type : Option ToastTypes := none
  description : Option Title := none
  dismissible : Option Bool := none
  duration : Option Int := none
deriving DecidableEq

/-- Argument of `create` (`CreateToastData` from `state.ts`): all fields
optional; `message` plays the role of the stored `title`. -/
structure CreateToastData where
  id : Option ToastId := none
  message : Option Title := none
  type : Option ToastTypes := none
  description : Option Title := none
  dismissible : Option Bool := none
  duration : Option Int := none
deriving DecidableEq

/-- Argument of `showToast`/`custom` (`ExternalToast` from `types.ts`):
like `CreateToastData` but with no `message`/`type` keys. -/
structure ExternalToastData where
  id : Option ToastId := none
  description : Option Title := none
  dismissible : Option Bool := none
  duration : Option Int := none
deriving DecidableEq

/-- An event delivered to a subscriber: either a full record (from
`publish`) or a `ToastToDismiss` dismiss signal. -/
inductive Event where
  | record (t : ToastT)
  | dismissSignal (id : ToastId)
deriving DecidableEq

/-- Subscribers are identified abstractly; delivering an event means
calling the subscriber function. -/
abbrev SubId := Nat

/-- The module-level mutable state of `state.ts`: the counter
`toastsCounter` (initially 1) and the ordered array `toasts`. -/
structure StoreState where
  toastsCounter : Int := 1
  toasts : List ToastT := []
deriving DecidableEq

/-- Identifier resolution in `create`:
`typeof data?.id === "number" || (typeof data?.id === "string" && data.id.length > 0) ? data.id : toastsCounter++`.
Returns the resolved id together with the new counter (the counter is
incremented only when it is drawn from). -/
def resolveId (counter : Int) (dataId : Option ToastId) : ToastId × Int :=
  match dataId with
  | some (.num n) => (.num n, counter)
  | some (.str s) => if s.length > 0 then (.str s, counter) else (.num counter, counter + 1)
  | none => (.num counter, counter + 1)

/-- The merged record stored by `create` on an identifier match:
`toasts[i] = { ...toast, ...data, id, dismissible, title: message }`.
Spreading `data` overrides exactly the fields present in `data`; the
trailing explicit keys then force `id`, `dismissible` and
`title` (the latter to `data.message`, even when that is absent). -/
def mergeStored (old : ToastT) (data : CreateToastData) (id : ToastId) (dismissible : Bool) : ToastT :=
  { id := id
    title := data.message
    type := data.type.orElse fun _ => old.type
    description := data.description.orElse fun _ => old.description
    dismissible := some dismissible
    duration := data.duration.orElse fun _ => old.duration }

/-- The record published by `create` on an identifier match:
`publish({ ...toast, ...data, id, title: message })` — like `mergeStored`
but without the forced `dismissible` key. -/
def mergePublished (old : ToastT) (data : CreateToastData) (id : ToastId) : ToastT :=
  { id := id
    title := data.message
    type := data.type.orElse fun _ => old.type
    description := data.description.orElse fun _ => old.description
    dismissible := data.dismissible.orElse fun _ => old.dismissible
    duration := data.duration.orElse fun _ => old.duration }

/-- The fresh record appended by `create` when no identifier matches:
`addToast({ title: message, ...rest, dismissible, id })` where `rest` is
`data` without `message`. -/
def newToastRecord (data : CreateToastData) (id : ToastId) (dismissible : Bool) : ToastT :=
  { id := id
    title := data.message
    type := data.type
    description := data.description
    dismissible := some dismissible
    duration := data.duration }

/-- The `create` operation of `state.ts`.  Returns the new store state,
the list of `publish` calls it made (in order), and the resolved
identifier it returns to the caller.  On an identifier match it publishes
the merged record and mutates the stored copy in place, once per matching
index; otherwise it appends a fresh record via `addToast` (which
publishes, then pushes). -/
def create (st : StoreState) (data : CreateToastData) : StoreState × List Event × ToastId :=
  let id := (resolveId st.toastsCounter data.id).1
  let counter' := (resolveId st.toastsCounter data.id).2
  let dismissible := data.dismissible.getD true
  let alreadyExists := st.toasts.any (fun t => t.id = id)
  if alreadyExists then
    let events := st.toasts.filterMap fun t =>
      if t.id = id then some (Event.record (mergePublished t data id)) else none
    let toasts' := st.toasts.map fun t =>
      if t.id = id then mergeStored t data id dismissible else t
    (⟨counter', toasts'⟩, events, id)
  else
    let r := newToastRecord data id dismissible
    (⟨counter', st.toasts ++ [r]⟩, [Event.record r], id)

/-- The dismiss signals emitted by one `dismiss` call of `state.ts`.
`if (!id)` — an absent OR falsy identifier (`0`, `""`) — emits a signal
for every stored record in store order; a truthy identifier emits the
single signal `{ id, dismiss: true }`. -/
def dismissEvents (st : StoreState) (id : Option ToastId) : List Event :=
  let truthy := match id with
    | none => false
    | some i => i.truthy
  if truthy = false then
    st.toasts.map fun t => Event.dismissSignal t.id
  else
    [Event.dismissSignal (id.getD (.num 0))]

/-- The `dismiss` operation of `state.ts`: each emitted signal is handed
to every subscriber in turn (in the falsy branch the store loop is outer
and the subscriber loop inner, which is exactly the flattening below).
The store itself is never modified, and the identifier argument is
returned unchanged. -/
def dismiss (subs : List SubId) (st : StoreState) (id : Option ToastId) :
    StoreState × List (SubId × Event) × Option ToastId :=
  (st, (dismissEvents st id).flatMap (fun e => subs.map fun s => (s, e)), id)

/-- The `show` operation of `state.ts` (the module's default export):
`const id = data?.id || toastsCounter++` (truthiness-based), then
`addToast({ title: message, ...data, id })` — an unconditional publish
and append, with no identifier scan.  Named `showToast` because `show`
is reserved in Lean. -/
def showToast (st : StoreState) (message : Title) (data : ExternalToastData) :
    StoreState × List Event × ToastId :=
  let id := match data.id with
    | some i => if i.truthy then i else ToastId.num st.toastsCounter
    | none => ToastId.num st.toastsCounter
  let counter' := match data.id with
    | some i => if i.truthy then st.toastsCounter else st.toastsCounter + 1
    | none => st.toastsCounter + 1
  let r : ToastT :=
    { id := id
      title := some message
      type := none
      description := data.description
      dismissible := data.dismissible
      duration := data.duration }
  (⟨counter', st.toasts ++ [r]⟩, [Event.record r], id)

/-- Runs a sequence of `create` calls, threading the store state. -/
def runCreates (st : StoreState) : List CreateToastData → StoreState
  | [] => st
  | d :: ds => runCreates (create st d).1 ds

/-- Expands a list of `publish` calls into the per-subscriber deliveries:
each `publish(data)` runs `for (const subscriber of subscribers)
subscriber(data)` over the current subscriber set. -/
def deliveries (subs : List SubId) (events : List Event) : List (SubId × Event) :=
  events.flatMap fun e => subs.map fun s => (s, e)

/-- One observable step of a `create` call: a delivery to a subscriber,
or the return of the resolved identifier to the caller. -/
inductive TraceStep where
  | delivered (s : SubId) (e : Event)
  | returned (id : ToastId)
deriving DecidableEq

/-- The linearized observable trace of one `create` call: `create` runs
its publish loop (delivering to every subscriber, synchronously) and only
then returns the resolved identifier. -/
def createTrace (subs : List SubId) (st : StoreState) (data : CreateToastData) : List TraceStep :=
  (deliveries subs (create st data).2.1).map (fun p => TraceStep.delivered p.1 p.2)
    ++ [TraceStep.returned (create st data).2.2]

/-- A height-tracker entry (`HeightT` from `types.ts`); the optional lane
tag plays no part in any tracked computation. -/
structure HeightT where
  toastId : ToastId
  height : Int
deriving DecidableEq

/-- The `offset` method of `Heights` (`heights.tsx`): walk the list from
the front, `break` at the first entry whose `toastId` is the queried id,
accumulating `height + gap` for every entry walked past.  When the id is
absent the loop never breaks and the whole list is accumulated. -/
def Heights.offset (heights : List HeightT) (id : ToastId) (gap : Int) : Int :=
  match heights with
  | [] => 0
  | h :: rest => if h.toastId = id then 0 else h.height + gap + Heights.offset rest id gap

/-- The `add` method of `Heights`: prepend (front = most recent). -/
def Heights.add (heights : List HeightT) (h : HeightT) : List HeightT :=
  h :: heights

/-- The `remove` method of `Heights`: filter out every entry with the
given id. -/
def Heights.remove (heights : List HeightT) (id : ToastId) : List HeightT :=
  heights.filter fun h => h.toastId ≠ id

/-- The `front` method of `Heights`. -/
def Heights.front (heights : List HeightT) : Option Int :=
  heights.head?.map HeightT.height

/-- The autoclose-timer fields of the `Toast` lifecycle controller in
`sonner.tsx`: `#closeTimerStartTime` (wall-clock arm timestamp),
`#remainingTime` (milliseconds left) and `#timeoutId` — the pending
`setTimeout` handle, modelled as the scheduled fire deadline (handles are
opaque truthy values, so a handle is truthy iff present). -/
structure TimerState where
  closeTimerStartTime : Option Int := none
  remainingTime : Option Int := none
  timeoutId : Option Int := none
deriving DecidableEq

/-- The `#startAutocloseTimer` method: `if (!this.#timeoutId)` — with a
timer already pending it does nothing at all.  Otherwise it records the
arm timestamp (`Date.now()`), seeds `#remainingTime` only if still unset
(`??=`, from `toast.duration ?? props.duration ?? TOAST_LIFETIME`), and
schedules the fire after `#remainingTime`. -/
def startAutocloseTimer (now : Int) (toastDuration propsDuration : Option Int)
    (st : TimerState) : TimerState :=
  match st.timeoutId with
  | some _ => st
  | none =>
    let remaining := st.remainingTime.getD (toastDuration.getD (propsDuration.getD 4000))
    { closeTimerStartTime := some now
      remainingTime := some remaining
      timeoutId := some (now + remaining) }

/-- The `#pauseAutocloseTimer` method:
`if (this.#closeTimerStartTime && this.#remainingTime && this.#timeoutId)`
— the two numeric fields are truthiness-tested (zero counts as unset) —
then `#remainingTime = Math.max(0, #remainingTime - elapsed)` with
`elapsed = Date.now() - #closeTimerStartTime`, and the pending fire is
cancelled. -/
def pauseAutocloseTimer (now : Int) (st : TimerState) : TimerState :=
  match st.closeTimerStartTime, st.remainingTime, st.timeoutId with
  | some start, some r, some _ =>
    if start ≠ 0 ∧ r ≠ 0 then
      { st with
          remainingTime := some (max 0 (r - (now - start)))
          timeoutId := none }
    else st
  | _, _, _ => st

/-- Outcome of the `pointerup` branch of `Toast.handleEvent`. -/
inductive SwipeOutcome where
  | committed
  | reset
  | ignored
deriving DecidableEq

/-- The velocity test of the `pointerup` branch, under JS arithmetic:
`Math.abs(swipeAmount) / timeTaken > 0.11`.  JS division by zero yields
`Infinity` when the numerator is positive (so the comparison holds) and
`NaN` when it is `0/0` (so the comparison fails); for a nonzero
denominator it is exact rational division (the concrete comparisons the
engine faces are far from a double's rounding boundary). -/
def velocityExceeds (absSwipe timeTaken : Int) : Bool :=
  if timeTaken = 0 then absSwipe > 0
  else (absSwipe : ℚ) / (timeTaken : ℚ) > 11 / 100

/-- The gesture-end decision of `Toast.handleEvent` (`pointerup`): only a
not-yet-swiped-out, dismissible toast decides; `swipeAmount` is read back
from the `--swipe-amount` CSS property (empty reads as 0),
`timeTaken = Date.now() - (#dragStartTime ?? 0)`, and the toast is
dismissed iff `|swipeAmount| >= SWIPE_THRESHOLD (20)` or the velocity
exceeds `0.11` px/ms; otherwise the swipe amount is reset to `0px`. -/
def pointerupOutcome (swipedOut dismissible : Bool) (swipeAmount : Option Int)
    (dragStartTime : Option Int) (now : Int) : SwipeOutcome :=
  if swipedOut = false ∧ dismissible then
    let s := swipeAmount.getD 0
    let timeTaken := now - dragStartTime.getD 0
    if |s| ≥ 20 ∨ velocityExceeds |s| timeTaken then .committed else .reset
  else .ignored

/-- The removal/offset fields of the `Toast` lifecycle controller:
`#removed` and `#offsetBeforeRemove`. -/
structure ToastOffsetState where
  removed : Bool := false
  offsetBeforeRemove : Option Int := none
deriving DecidableEq

/-- The `#updateOffset` method: the offset written to the element is
`(this.#removed && this.#offsetBeforeRemove) ? this.#offsetBeforeRemove
: heights.offset(toast.id, gap)` — note `#offsetBeforeRemove` is
truthiness-tested, so a frozen offset of `0` falls through to the live
height-tracker query. -/
def updateOffset (heights : List HeightT) (gap : Int) (id : ToastId)
    (st : ToastOffsetState) : Int :=
  match st.offsetBeforeRemove with
  | some o => if st.removed ∧ o ≠ 0 then o else Heights.offset heights id gap
  | none => Heights.offset heights id gap

/-- The `#deleteToast` method: set `#removed`, freeze
`#offsetBeforeRemove = this.#updateOffset()` (computed with `#removed`
already true), then unregister from the height tracker.  Returns the new
controller state and the new tracker list; the deferred
`removeToast` callback does not touch these fields. -/
def deleteToast (heights : List HeightT) (gap : Int) (id : ToastId)
    (st : ToastOffsetState) : ToastOffsetState × List HeightT :=
  let st1 : ToastOffsetState := { st with removed := true }
  let frozen := updateOffset heights gap id st1
  ({ st1 with offsetBeforeRemove := some frozen }, Heights.remove heights id)

/-- A value the wrapped promise can resolve with, as the adapter
distinguishes them: a renderable element (`isValidElement`), a duck-typed
HTTP response (boolean `ok`, numeric `status`), or anything else. -/
inductive ResolvedValue where
  | element
  | httpResponse (ok : Bool) (status : Int)
  | plain (v : String)
deriving DecidableEq

/-- The `isValidElement` test applied to a resolved value. -/
def isValidElement : ResolvedValue → Bool
  | .element => true
  | _ => false

/-- The `isHttpResponse` duck test of `state.ts`. -/
def isHttpResponse : ResolvedValue → Bool
  | .httpResponse _ _ => true
  | _ => false

/-- How the wrapped promise settled. -/
inductive PromiseOutcome where
  | resolved (v : ResolvedValue)
  | rejected (e : String)

/-- The argument a message/description function of `PromiseData` is
called with: the resolved value, the caught rejection value, or the
string built from a failing HTTP status
(`` `HTTP error! status: ${response.status}` ``). -/
inductive PromiseFnInput where
  | value (v : ResolvedValue)
  | errorText (e : String)
  | httpStatus (status : Int)

/-- A `PromiseTResult` from `types.ts`: a constant payload, or a function
of the settlement (awaited if it returns a promise — awaiting does not
change which store operations run, only when, within the same
continuation). -/
inductive PromiseResult where
  | const (t : Title)
  | fn (f : PromiseFnInput → Title)

/-- Resolves a `PromiseTResult` against a settlement
(`typeof r === "function" ? await r(x) : r`). -/
def resolveR : PromiseResult → PromiseFnInput → Title
  | .const t, _ => t
  | .fn f, x => f x

/-- Resolves an optional `PromiseTResult`; an absent one stays absent. -/
def resolvePR (r : Option PromiseResult) (x : PromiseFnInput) : Option Title :=
  r.map fun pr => resolveR pr x

/-- The `description` passed to the loading `create`:
`typeof data.description !== "function" ? data.description : undefined`. -/
def constDescription : Option PromiseResult → Option Title
  | some (.const t) => some t
  | _ => none

/-- The `PromiseData` options of `promise` (`types.ts`), restricted to
the fields the adapter reads. -/
structure PromiseData where
  id : Option ToastId := none
  loading : Option Title := none
  success : Option PromiseResult := none
  error : Option PromiseResult := none
  description : Option PromiseResult := none
  dismissible : Option Bool := none
  duration : Option Int := none

/-- The `promise` adapter of `state.ts`, run to completion against a
given settlement of the wrapped promise.  Without options it shows
nothing.  Otherwise: if `loading` is set, `create` a loading record
(spreading the options) and capture its id; on resolution, an element
replaces via a `default` create, a failing HTTP response via an `error`
create, else a configured `success` replaces via a `success` create,
else nothing; on rejection a configured `error` replaces via an `error`
create, else nothing; finally, if no replacement was created and a
loading record was shown, `dismiss(id)` runs.  Returns the final store
state and the `publish`-level event sequence. -/
def promiseRun (st : StoreState) (dataOpt : Option PromiseData)
    (outcome : PromiseOutcome) : StoreState × List Event :=
  match dataOpt with
  | none => (st, [])
  | some data =>
    let step1 : StoreState × List Event × Option ToastId :=
      match data.loading with
      | some l =>
        let c := create st
          { id := data.id
            message := some l
            type := some .loading
            description := constDescription data.description
            dismissible := data.dismissible
            duration := data.duration }
        (c.1, c.2.1, some c.2.2)
      | none => (st, [], none)
    let st1 := step1.1
    let evs1 := step1.2.1
    let idOpt := step1.2.2
    let step2 : StoreState × List Event × Bool :=
      match outcome with
      | .resolved v =>
        if isValidElement v then
          let c := create st1 { id := idOpt, type := some .default, message := some .elem }
          (c.1, c.2.1, false)
        else
          match v with
          | .httpResponse false status =>
            let c := create st1
              { id := idOpt
                type := some .error
                message := resolvePR data.error (.httpStatus status)
                description := resolvePR data.description (.httpStatus status) }
            (c.1, c.2.1, false)
          | _ =>
            match data.success with
            | some sres =>
              let c := create st1
                { id := idOpt
                  type := some .success
                  message := some (resolveR sres (.value v))
                  description := resolvePR data.description (.value v) }
              (c.1, c.2.1, false)
            | none => (st1, [], idOpt.isSome)
      | .rejected e =>
        match data.error with
        | some eres =>
          let c := create st1
            { id := idOpt
              type := some .error
              message := some (resolveR eres (.errorText e))
              description := resolvePR data.description (.errorText e) }
          (c.1, c.2.1, false)
        | none => (st1, [], idOpt.isSome)
    let st2 := step2.1
    let evs2 := step2.2.1
    let shouldDismiss := step2.2.2
    if shouldDismiss then
      (st2, evs1 ++ evs2 ++ dismissEvents st2 idOpt)
    else
      (st2, evs1 ++ evs2)

/-- What a subscriber callback does to the subscriber set when it is
called during a publish loop. -/
inductive SubAction where
  | pure
  | add (j : SubId)
  | remove (j : SubId)

/-- Whether `j` is a live member of a `Set` table (entries carry an
alive flag; deleted entries become dead slots, as in the JS `Set`
iteration protocol). -/
def aliveIn (table : List (SubId × Bool)) (j : SubId) : Bool :=
  table.any fun p => p.1 = j ∧ p.2

/-- `Set.prototype.delete(j)`: the live slot of `j`, if any, goes dead. -/
def markDead (table : List (SubId × Bool)) (j : SubId) : List (SubId × Bool) :=
  table.map fun p => if p.1 = j ∧ p.2 then (p.1, false) else p

/-- The loop `for (const subscriber of subscribers) subscriber(data)` of
`publish` (and of `dismiss`), with the JS `Set` live-iteration protocol:
the iterator walks the slot table in insertion order past dead slots;
`delete` kills a slot in place (a not-yet-visited deletee is skipped, an
already-visited one is unaffected); `add` of a non-member appends a live
slot, which the in-flight iteration will reach.  `done` holds the slots
behind the cursor, `todo` those ahead; the result lists the subscribers
the in-flight event was delivered to, in delivery order.  `fuel` bounds
the number of slots walked (any fuel past the final table length is
enough). -/
def dispatchGo : Nat → (SubId → SubAction) → List (SubId × Bool) → List (SubId × Bool) → List SubId
  | 0, _, _, _ => []
  | _ + 1, _, _, [] => []
  | fuel + 1, world, done, (s, false) :: rest =>
    dispatchGo fuel world (done ++ [(s, false)]) rest
  | fuel + 1, world, done, (s, true) :: rest =>
    match world s with
    | .pure => s :: dispatchGo fuel world (done ++ [(s, true)]) rest
    | .add j =>
      if aliveIn (done ++ (s, true) :: rest) j then
        s :: dispatchGo fuel world (done ++ [(s, true)]) rest
      else
        s :: dispatchGo fuel world (done ++ [(s, true)]) (rest ++ [(j, true)])
    | .remove j =>
      s :: dispatchGo fuel world (markDead (done ++ [(s, true)]) j) (markDead rest j)

/-- One publish dispatch over the current subscriber set (insertion
order), every subscriber live at dispatch start. -/
def dispatch (fuel : Nat) (world : SubId → SubAction) (subs : List SubId) : List SubId :=
  dispatchGo fuel world [] (subs.map fun s => (s, true))

/-- Whether a trace step is a delivery to a subscriber. -/
def isDelivered : TraceStep → Bool
  | .delivered _ _ => true
  | _ => false

/-- Whether a trace step is the return to the caller. -/
def isReturned : TraceStep → Bool
  | .returned _ => true
  | _ => false

/-- The property "no subscriber callback runs before the call returns":
every step of the trace that precedes the first return is not a
delivery. -/
def noDeliveryBeforeReturn (tr : List TraceStep) : Bool :=
  (tr.takeWhile fun step => !isReturned step).all fun step => !isDelivered step


/-- Helper: `Heights.offset` equals the sum of `height + gap` over the
prefix of entries strictly before the first occurrence of the id (the
whole list when the id is absent). -/
theorem offset_helper (id : ToastId) (gap : Int) :
    ∀ hs : List HeightT,
      Heights.offset hs id gap
        = ((hs.takeWhile fun h => h.toastId ≠ id).map fun h => h.height + gap).sum
  | [] => by simp [Heights.offset]
  | h :: rest => by
    by_cases hh : h.toastId = id
    · simp [Heights.offset, hh, List.takeWhile_cons]
    · simp [Heights.offset, hh, List.takeWhile_cons, offset_helper id gap rest]

/-- Claim C2 (corrected): `Heights.offset(id, gap)` sums `height + gap`
over every entry strictly before the first occurrence of `id`, and is 0
when `id` is the front entry; the spec's concrete examples hold.  But
when `id` is NOT present the loop never breaks, so the offset is the sum
over ALL entries — not 0 as the claim states (see `offset_c2_cex`). -/
theorem offset_c2 (hs : List HeightT) (id : ToastId) (gap : Int) :
    Heights.offset hs id gap
      = ((hs.takeWhile fun h => h.toastId ≠ id).map fun h => h.height + gap).sum
    ∧ ((∀ h ∈ hs, h.toastId ≠ id) →
        Heights.offset hs id gap = (hs.map fun h => h.height + gap).sum)
    ∧ Heights.offset [⟨.str "a", 40⟩, ⟨.str "b", 30⟩, ⟨.str "c", 20⟩] (.str "a") 10 = 0
    ∧ Heights.offset [⟨.str "a", 40⟩, ⟨.str "b", 30⟩, ⟨.str "c", 20⟩] (.str "b") 10 = 50
    ∧ Heights.offset [⟨.str "a", 40⟩, ⟨.str "b", 30⟩, ⟨.str "c", 20⟩] (.str "c") 10 = 90
    ∧ Heights.offset (Heights.remove [⟨.str "a", 40⟩, ⟨.str "b", 30⟩, ⟨.str "c", 20⟩] (.str "a")) (.str "b") 10 = 0 := by
  refine ⟨offset_helper id gap hs, fun hall => ?_, by decide, by decide, by decide, by decide⟩
  rw [offset_helper id gap hs, List.takeWhile_eq_self_iff.mpr]
  intro x hx
  simpa using hall x hx

/-- Witness for `offset_c2` at a concrete input: the id `b` is absent
from `[{a,40}]`, so the offset is the full sum. -/
theorem offset_c2_witness :
    Heights.offset [⟨.str "a", 40⟩] (.str "b") 10 = (([⟨ToastId.str "a", 40⟩] : List HeightT).map fun h => h.height + 10).sum :=
  (offset_c2 [⟨.str "a", 40⟩] (.str "b") 10).2.1 (by decide)

/-- Counterexample to claim C2 as stated: for the single-entry list
`[{a,40}]` and gap 10, `offset("b", 10)` returns 50, not the 0 the claim
requires for an id that is not present. -/
theorem offset_c2_cex :
    Heights.offset [⟨.str "a", 40⟩] (.str "b") 10 = 50 ∧ (50 : Int) ≠ 0 := by decide

/-- Claim C3 (corrected): for a timer armed at a NONZERO wall-clock time
`t` with `remainingTime = r > 0`, pausing at `t + e` sets
`remainingTime = max 0 (r - e)` and cancels the pending fire; a second
pause with no intervening start changes nothing (the guard requires a
pending `timeoutId`), and a start while a timer is pending schedules
nothing new.  The nonzero-`t` hypothesis is forced by the truthiness
guard `this.#closeTimerStartTime && ...` (see `pause_c3_cex`). -/
theorem pause_c3 (t r e d now2 : Int) (td pd : Option Int)
    (ht : t ≠ 0) (hr : 0 < r) :
    pauseAutocloseTimer (t + e) ⟨some t, some r, some d⟩
        = ⟨some t, some (max 0 (r - e)), none⟩
    ∧ pauseAutocloseTimer now2 ⟨some t, some (max 0 (r - e)), none⟩
        = ⟨some t, some (max 0 (r - e)), none⟩
    ∧ startAutocloseTimer now2 td pd ⟨some t, some r, some d⟩ = ⟨some t, some r, some d⟩ := by
  refine ⟨?_, ?_, ?_⟩
  · simp [pauseAutocloseTimer, ht, hr.ne']
  · simp [pauseAutocloseTimer]
  · simp [startAutocloseTimer]

/-- Witness for `pause_c3`: armed at time 100 with 1000 ms remaining,
paused 300 ms later. -/
theorem pause_c3_witness :
    pauseAutocloseTimer (100 + 300) ⟨some 100, some 1000, some 1100⟩
        = ⟨some 100, some (max 0 (1000 - 300)), none⟩
    ∧ pauseAutocloseTimer 900 ⟨some 100, some (max 0 (1000 - 300)), none⟩
        = ⟨some 100, some (max 0 (1000 - 300)), none⟩
    ∧ startAutocloseTimer 900 none none ⟨some 100, some 1000, some 1100⟩
        = ⟨some 100, some 1000, some 1100⟩ :=
  pause_c3 100 1000 300 1100 900 none none (by decide) (by decide)

/-- Counterexample to claim C3 as stated: a timer armed exactly at
wall-clock time 0 (with `remainingTime = 1000`) is not pausable — the
truthy-guard skips the whole body, so 300 ms later `remainingTime` is
still 1000 (not `max 0 (1000 - 300) = 700`) and the pending fire is not
cancelled. -/
theorem pause_c3_cex :
    pauseAutocloseTimer (0 + 300) ⟨some 0, some 1000, some 1000⟩
        = ⟨some 0, some 1000, some 1000⟩
    ∧ (1000 : Int) ≠ max 0 (1000 - 300)
    ∧ (some (1000 : Int) ≠ (none : Option Int)) := by decide

/-- Claim C5 (corrected): for a dismissible, not-yet-swiped-out toast
whose gesture took `e > 0` milliseconds, gesture-end commits dismissal
iff `|displacement| >= 20` or `|displacement| / e > 0.11`; 20 px at low
velocity commits, 15 px within 136 ms commits, 10 px over 500 ms resets.
The claim's "15 px in under 140 ms" example is wrong: `15/140 < 0.11`,
and e.g. 139 ms does not commit (see `swipe_c5_cex`). -/
theorem swipe_c5 (s t0 e : Int) (he : 0 < e) :
    (pointerupOutcome false true (some s) (some t0) (t0 + e) = .committed
      ↔ (20 ≤ |s| ∨ (11 : ℚ) / 100 < (|s| : ℚ) / (e : ℚ)))
    ∧ pointerupOutcome false true (some 20) (some 0) 10000 = .committed
    ∧ pointerupOutcome false true (some 15) (some 0) 136 = .committed
    ∧ pointerupOutcome false true (some 10) (some 0) 500 = .reset := by
  refine ⟨?_, ?_, ?_, ?_⟩
  · simp only [pointerupOutcome, velocityExceeds, Option.getD, add_sub_cancel_left, he.ne']
    constructor
    · intro h
      by_cases hc : 20 ≤ |s| ∨ velocityExceeds |s| e
      · rcases hc with hc | hc
        · exact Or.inl hc
        · right
          simpa [velocityExceeds, he.ne'] using hc
      · simp [pointerupOutcome, velocityExceeds, he.ne'] at h hc
        exact absurd h (by simp [hc.1, hc.2])
    · intro h
      have : 20 ≤ |s| ∨ velocityExceeds |s| e := by
        rcases h with h | h
        · exact Or.inl h
        · exact Or.inr (by simp [velocityExceeds, he.ne']; exact h)
      simp [pointerupOutcome, velocityExceeds, he.ne'] at this ⊢
      rcases this with h' | h' <;> simp [h']
  · simp [pointerupOutcome, velocityExceeds]
  · simp [pointerupOutcome, velocityExceeds]
    norm_num
  · simp [pointerupOutcome, velocityExceeds]
    norm_num

/-- Witness for `swipe_c5`: 15 px in 136 ms commits
(`15/136 > 0.11`). -/
theorem swipe_c5_witness :
    pointerupOutcome false true (some 15) (some 0) (0 + 136) = .committed :=
  ((swipe_c5 15 0 136 (by decide)).1).mpr (Or.inr (by norm_num))

/-- Counterexample to claim C5 as stated: a 15 px displacement reached in
139 ms is "under 140 ms", yet the gesture resets instead of committing —
the velocity `15/139` is below the `0.11` px/ms threshold. -/
theorem swipe_c5_cex :
    (139 : Int) < 140
    ∧ pointerupOutcome false true (some 15) (some 0) 139 = SwipeOutcome.reset
    ∧ SwipeOutcome.reset ≠ SwipeOutcome.committed := by
  refine ⟨by decide, ?_, by decide⟩
  simp [pointerupOutcome, velocityExceeds]
  norm_num

/-- Claim C6 (corrected): once removal begins, every later offset query
returns the frozen `offsetBeforeRemove` — PROVIDED the frozen value is
nonzero.  (A frozen 0 fails the truthiness test and falls through to the
live tracker, see `freeze_c6_cex`.) -/
theorem freeze_c6 (heights heights2 : List HeightT) (gap gap2 : Int)
    (id : ToastId) (st : ToastOffsetState)
    (hnz : updateOffset heights gap id { st with removed := true } ≠ 0) :
    updateOffset heights2 gap2 id (deleteToast heights gap id st).1
      = updateOffset heights gap id { st with removed := true } := by
  have hd : (deleteToast heights gap id st).1
      = ⟨true, some (updateOffset heights gap id { st with removed := true })⟩ := rfl
  rw [hd]
  simp [updateOffset, hnz]
  intro h0
  exact absurd (by simpa [updateOffset] using h0) hnz

/-- Witness for `freeze_c6`: toast `b` behind `a` freezes offset 50 at
removal; a query against an emptied tracker with a different gap still
returns 50. -/
theorem freeze_c6_witness :
    updateOffset [] 7 (.str "b")
        (deleteToast [⟨.str "a", 40⟩, ⟨.str "b", 30⟩] 10 (.str "b") ⟨false, none⟩).1
      = updateOffset [⟨.str "a", 40⟩, ⟨.str "b", 30⟩] 10 (.str "b") ⟨true, none⟩ :=
  freeze_c6 [⟨.str "a", 40⟩, ⟨.str "b", 30⟩] [] 10 7 (.str "b") ⟨false, none⟩ (by decide)

/-- Counterexample to claim C6 as stated: the front toast `a` freezes
`offsetBeforeRemove = 0` at removal; after the tracker later holds
`[{b,30}]`, an offset query for `a` returns the live value 40 — the
frozen 0 is falsy, so it is not reused and the exiting element jumps. -/
theorem freeze_c6_cex :
    (deleteToast [⟨.str "a", 40⟩] 10 (.str "a") ⟨false, none⟩).1 = ⟨true, some 0⟩
    ∧ updateOffset [⟨.str "b", 30⟩] 10 (.str "a") ⟨true, some 0⟩ = 40
    ∧ (40 : Int) ≠ 0 := by decide

/-- Claim C7 (corrected): for every TRUTHY identifier (a nonzero number
or non-empty string), `dismiss(id)` delivers exactly one
`DismissSignal {id, dismiss: true}` to every subscriber in order, leaves
the store untouched, returns the identifier, and a repeated call
publishes the same deliveries again; no identifier is ever an error.
The number 0 is excluded: `if (!id)` routes it to the dismiss-all
branch (see `dismiss_c7_cex`). -/
theorem dismiss_c7 (subs : List SubId) (st : StoreState) (id : ToastId)
    (h : id.truthy = true) :
    dismiss subs st (some id)
        = (st, subs.map (fun s => (s, Event.dismissSignal id)), some id)
    ∧ (dismiss subs (dismiss subs st (some id)).1 (some id)).2.1
        = (dismiss subs st (some id)).2.1 := by
  have h1 : dismissEvents st (some id) = [Event.dismissSignal id] := by
    simp [dismissEvents, h]
  constructor
  · simp [dismiss, h1]
  · rfl

/-- Witness for `dismiss_c7` with two subscribers and an unknown id
(empty store): one signal per subscriber, store untouched. -/
theorem dismiss_c7_witness :
    dismiss [0, 1] ⟨1, []⟩ (some (.str "x"))
        = (⟨1, []⟩, [(0, Event.dismissSignal (.str "x")), (1, Event.dismissSignal (.str "x"))], some (.str "x"))
    ∧ (dismiss [0, 1] (dismiss [0, 1] ⟨1, []⟩ (some (.str "x"))).1 (some (.str "x"))).2.1
        = (dismiss [0, 1] ⟨1, []⟩ (some (.str "x"))).2.1 := by
  have := dismiss_c7 [0, 1] ⟨1, []⟩ (.str "x") (by decide)
  exact ⟨by rw [this.1]; rfl, this.2⟩

/-- Counterexample to claim C7 as stated: `dismiss(0)` — 0 is a number,
so the claim covers it — does not publish `DismissSignal {0}`: with a
store holding toast 1 it publishes the signal for id 1 (the dismiss-all
branch), and with an empty store it publishes nothing at all. -/
theorem dismiss_c7_cex :
    (dismiss [0] ⟨1, [{ id := ToastId.num 1 }]⟩ (some (.num 0))).2.1
        = [(0, Event.dismissSignal (.num 1))]
    ∧ Event.dismissSignal (.num 1) ≠ Event.dismissSignal (.num 0)
    ∧ (dismiss [0] ⟨1, []⟩ (some (.num 0))).2.1 = [] := by decide

/-- Claim C10 (corrected): when `show` is called with a TRUTHY id equal
to a live record's id, it unconditionally publishes and appends a second
record with that same identifier — it never merges — leaving at least
two live records sharing the identifier.  A falsy id (the number 0) is
excluded: `data?.id || toastsCounter++` then draws a fresh counter id
(see `show_c10_cex`). -/
theorem show_c10 (st : StoreState) (m : Title) (data : ExternalToastData)
    (i : ToastId) (hid : data.id = some i) (htr : i.truthy = true)
    (hex : ∃ t ∈ st.toasts, t.id = i) :
    (showToast st m data).2.2 = i
    ∧ (showToast st m data).1.toasts.length = st.toasts.length + 1
    ∧ (showToast st m data).1.toasts.take st.toasts.length = st.toasts
    ∧ (∃ tnew, (showToast st m data).1.toasts.getLast? = some tnew ∧ tnew.id = i
        ∧ (showToast st m data).2.1 = [Event.record tnew])
    ∧ 2 ≤ (showToast st m data).1.toasts.countP (fun t => t.id = i) := by
  have hshow : showToast st m data
      = (⟨st.toastsCounter,
          st.toasts ++ [⟨i, some m, none, data.description, data.dismissible, data.duration⟩]⟩,
        [Event.record ⟨i, some m, none, data.description, data.dismissible, data.duration⟩], i) := by
    simp [showToast, hid, htr]
  refine ⟨by rw [hshow], by rw [hshow]; simp, by rw [hshow]; simp [List.take_left], ?_, ?_⟩
  · refine ⟨⟨i, some m, none, data.description, data.dismissible, data.duration⟩, ?_, rfl, by rw [hshow]⟩
    rw [hshow]
    simp
  · rw [hshow]
    simp only [List.countP_append]
    have h1 : 0 < st.toasts.countP (fun t => t.id = i) := by
      rw [List.countP_pos_iff]
      obtain ⟨t, ht, hti⟩ := hex
      exact ⟨t, ht, by simp [hti]⟩
    have h2 : ([⟨i, some m, none, data.description, data.dismissible, data.duration⟩] : List ToastT).countP (fun t => t.id = i) = 1 := by
      simp [List.countP_cons]
    omega

/-- Witness for `show_c10`: `show` on a store holding id `"x"` with
`data.id = "x"` leaves two records with id `"x"`. -/
theorem show_c10_witness :
    (showToast ⟨1, [{ id := ToastId.str "x" }]⟩ (.text "m") { id := some (.str "x") }).2.2 = ToastId.str "x"
    ∧ 2 ≤ (showToast ⟨1, [{ id := ToastId.str "x" }]⟩ (.text "m") { id := some (.str "x") }).1.toasts.countP
        (fun t => t.id = ToastId.str "x") := by
  have := show_c10 ⟨1, [{ id := ToastId.str "x" }]⟩ (.text "m") { id := some (.str "x") }
    (.str "x") rfl (by decide) ⟨{ id := ToastId.str "x" }, by simp, rfl⟩
  exact ⟨this.1, this.2.2.2.2⟩

/-- Counterexample to claim C10 as stated: with a live record of id 0,
`show(m, {id: 0})` appends a record with the fresh counter id 1 — the
two live records do NOT share an identifier, because `0` is falsy in
`data?.id || toastsCounter++`. -/
theorem show_c10_cex :
    (showToast ⟨1, [{ id := ToastId.num 0 }]⟩ (.text "m") { id := some (.num 0) }).2.2 = ToastId.num 1
    ∧ ((showToast ⟨1, [{ id := ToastId.num 0 }]⟩ (.text "m") { id := some (.num 0) }).1.toasts.countP
        (fun t => t.id = ToastId.num 0)) = 1
    ∧ ToastId.num 1 ≠ ToastId.num 0 := by decide

/-- Helper: `create` returns the resolved identifier in both
branches. -/
theorem create_returns_resolved_id (st : StoreState) (data : CreateToastData) :
    (create st data).2.2 = (resolveId st.toastsCounter data.id).1 := by
  simp only [create]
  split <;> rfl

/-- Helper: on an identifier match, `create` maps the merge over the
stored list (in-place update). -/
theorem create_toasts_of_match (st : StoreState) (data : CreateToastData)
    (h : (st.toasts.any fun t => t.id = (resolveId st.toastsCounter data.id).1) = true) :
    (create st data).1.toasts
      = st.toasts.map fun t =>
          if t.id = (resolveId st.toastsCounter data.id).1 then
            mergeStored t data (resolveId st.toastsCounter data.id).1 (data.dismissible.getD true)
          else t := by
  simp [create, h]

/-- Helper: the stored identifiers after a `create`: unchanged on a
match, extended by the resolved id otherwise. -/
theorem create_ids (st : StoreState) (data : CreateToastData) :
    (create st data).1.toasts.map ToastT.id
      = if (st.toasts.any fun t => t.id = (resolveId st.toastsCounter data.id).1) = true
        then st.toasts.map ToastT.id
        else st.toasts.map ToastT.id ++ [(resolveId st.toastsCounter data.id).1] := by
  by_cases h : (st.toasts.any fun t => t.id = (resolveId st.toastsCounter data.id).1) = true
  · rw [if_pos h, create_toasts_of_match st data h, List.map_map]
    apply List.map_congr_left
    intro t _
    by_cases ht : t.id = (resolveId st.toastsCounter data.id).1
    · simp [ht, mergeStored]
    · simp [ht]
  · rw [if_neg h]
    simp [create, h, newToastRecord]

/-- Helper: one `create` preserves distinctness of stored
identifiers. -/
theorem create_nodup_ids (st : StoreState) (data : CreateToastData)
    (h : (st.toasts.map ToastT.id).Nodup) :
    ((create st data).1.toasts.map ToastT.id).Nodup := by
  rw [create_ids]
  split
  · exact h
  · rename_i hno
    rw [List.nodup_append]
    refine ⟨h, List.nodup_singleton _, ?_⟩
    intro a ha hb
    simp only [List.mem_singleton] at hb
    subst hb
    simp only [List.mem_map] at ha
    obtain ⟨t, ht, hid⟩ := ha
    rw [List.any_eq_true] at hno
    push_neg at hno
    exact hno t ht (by simp [hid])

/-- Helper: any sequence of `create` calls preserves distinctness of
stored identifiers. -/
theorem runCreates_nodup_ids (ds : List CreateToastData) :
    ∀ st : StoreState, (st.toasts.map ToastT.id).Nodup →
      ((runCreates st ds).toasts.map ToastT.id).Nodup := by
  induction ds with
  | nil => intro st h; simpa [runCreates] using h
  | cons d ds ih =>
    intro st h
    rw [runCreates]
    exact ih _ (create_nodup_ids st d h)

/-- Helper: distinct identifiers bound the per-identifier record count
by one. -/
theorem nodup_ids_countP_le_one (i : ToastId) :
    ∀ l : List ToastT, (l.map ToastT.id).Nodup → (l.countP fun t => t.id = i) ≤ 1 := by
  intro l
  induction l with
  | nil => simp
  | cons t rest ih =>
    intro h
    simp only [List.map_cons, List.nodup_cons] at h
    rw [List.countP_cons]
    by_cases ht : t.id = i
    · have hzero : (rest.countP fun t => t.id = i) = 0 := by
        rw [List.countP_eq_zero]
        intro a ha
        simp only [decide_eq_true_eq]
        intro hai
        exact h.1 (List.mem_map.mpr ⟨a, ha, by rw [hai, ht]⟩)
      simp [hzero, ht]
    · simp [ht, ih h.2]

/-- Claim C1 (corrected): a `create` whose resolved identifier matches a
live record never appends (the store keeps its length), any sequence of
`create` calls keeps at most one live record per identifier, and the
match is mutated in place with identifier preserved, `dismissible`
re-set, and every field present in the new data overriding while
`type`/`description`/`duration` absent from the new data are preserved.
The title is the exception the claim misses: it is unconditionally
re-set to the new `message`, clearing it when the new data has none
(see `create_c1_cex`). -/
theorem create_c1 (st : StoreState) (data : CreateToastData) (ds : List CreateToastData) :
    ((∃ t ∈ st.toasts, t.id = (create st data).2.2) →
        (create st data).1.toasts.length = st.toasts.length)
    ∧ ((st.toasts.map ToastT.id).Nodup →
        ∀ i : ToastId, ((runCreates st ds).toasts.countP fun t => t.id = i) ≤ 1)
    ∧ (∀ (n : Nat) (old : ToastT), st.toasts[n]? = some old → old.id = (create st data).2.2 →
        ∃ new : ToastT, (create st data).1.toasts[n]? = some new
          ∧ new.id = old.id
          ∧ new.title = data.message
          ∧ new.dismissible = some (data.dismissible.getD true)
          ∧ (data.type = none → new.type = old.type)
          ∧ (∀ x, data.type = some x → new.type = some x)
          ∧ (data.description = none → new.description = old.description)
          ∧ (∀ x, data.description = some x → new.description = some x)
          ∧ (data.duration = none → new.duration = old.duration)
          ∧ (∀ x, data.duration = some x → new.duration = some x)) := by
  refine ⟨?_, ?_, ?_⟩
  · intro ⟨t, ht, hid⟩
    have hany : (st.toasts.any fun t => t.id = (resolveId st.toastsCounter data.id).1) = true :=
      List.any_eq_true.mpr ⟨t, ht, by simp [← create_returns_resolved_id st data, hid]⟩
    rw [create_toasts_of_match st data hany, List.length_map]
  · intro h i
    exact nodup_ids_countP_le_one i _ (runCreates_nodup_ids ds st h)
  · intro n old hn hid
    rw [create_returns_resolved_id st data] at hid
    have hany : (st.toasts.any fun t => t.id = (resolveId st.toastsCounter data.id).1) = true :=
      List.any_eq_true.mpr ⟨old, List.getElem?_mem hn, by simp [hid]⟩
    refine ⟨mergeStored old data (resolveId st.toastsCounter data.id).1 (data.dismissible.getD true), ?_, ?_⟩
    · rw [create_toasts_of_match st data hany, List.getElem?_map, hn]
      simp [hid]
    · refine ⟨by simp [mergeStored, hid], rfl, rfl, ?_, ?_, ?_, ?_, ?_, ?_⟩
      all_goals intro hx
      all_goals simp_all [mergeStored, Option.orElse]

/-- Witness for `create_c1`: after a fresh create and an update by id,
id 1 is stored at most once. -/
theorem create_c1_witness :
    ((runCreates ⟨1, []⟩ [{ message := some (.text "A") }, { id := some (.num 1), message := some (.text "B") }]).toasts.countP
        fun t => t.id = ToastId.num 1) ≤ 1 :=
  (create_c1 ⟨1, []⟩ {} [{ message := some (.text "A") }, { id := some (.num 1), message := some (.text "B") }]).2.1
    (by decide) (ToastId.num 1)

/-- Counterexample to claim C1 as stated: `create {id: 1, message: "A"}`
followed by `create {id: 1, description: "d"}` leaves the stored title
`none` — the old title `"A"` is NOT preserved although `message` is
absent from the second call's data. -/
theorem create_c1_cex :
    (create (create ⟨1, []⟩ { id := some (.num 1), message := some (.text "A") }).1
        { id := some (.num 1), description := some (.text "d") }).1.toasts
      = [{ id := .num 1, title := none, description := some (.text "d"), dismissible := some true }]
    ∧ (none : Option Title) ≠ some (.text "A") := by decide

/-- Helper: every event a `create` publishes is a full record carrying
the resolved identifier. -/
theorem create_events_all_records (st : StoreState) (data : CreateToastData) :
    ∀ e ∈ (create st data).2.1, ∃ t : ToastT, e = .record t ∧ t.id = (create st data).2.2 := by
  intro e he
  rw [create_returns_resolved_id]
  by_cases h : (st.toasts.any fun t => t.id = (resolveId st.toastsCounter data.id).1) = true
  · simp only [create, h, if_true] at he
    simp only [List.mem_filterMap] at he
    obtain ⟨t, _, ht⟩ := he
    by_cases hid : t.id = (resolveId st.toastsCounter data.id).1
    · rw [if_pos hid] at ht
      injection ht with ht
      exact ⟨_, ht.symm, rfl⟩
    · rw [if_neg hid] at ht
      exact absurd ht (by simp)
  · simp [create, h] at he
    exact ⟨_, he, rfl⟩

/-- Helper: a `create` always publishes at least one event. -/
theorem create_events_ne_nil (st : StoreState) (data : CreateToastData) :
    (create st data).2.1 ≠ [] := by
  by_cases h : (st.toasts.any fun t => t.id = (resolveId st.toastsCounter data.id).1) = true
  · simp only [create, h, if_true]
    obtain ⟨t, ht, hid⟩ := List.any_eq_true.mp h
    have hmem : Event.record (mergePublished t data (resolveId st.toastsCounter data.id).1)
        ∈ st.toasts.filterMap fun t =>
          if t.id = (resolveId st.toastsCounter data.id).1 then
            some (Event.record (mergePublished t data (resolveId st.toastsCounter data.id).1))
          else none := by
      rw [List.mem_filterMap]
      exact ⟨t, ht, by simp_all⟩
    exact List.ne_nil_of_mem hmem
  · simp [create, h]

/-- Claim C8 (corrected): the observable trace of a `create` call ends
with the return of the resolved identifier, every earlier step is a
delivery of a full record already carrying that identifier, and — the
part the claim gets backwards — whenever at least one subscriber is
registered, a delivery precedes the return: subscribers run inside
`create`, before the caller receives the identifier. -/
theorem create_c8 (subs : List SubId) (st : StoreState) (data : CreateToastData) :
    (createTrace subs st data).getLast? = some (.returned (create st data).2.2)
    ∧ (∀ step ∈ (createTrace subs st data).dropLast,
        ∃ (s : SubId) (t : ToastT), step = .delivered s (.record t) ∧ t.id = (create st data).2.2)
    ∧ (subs ≠ [] → noDeliveryBeforeReturn (createTrace subs st data) = false) := by
  refine ⟨?_, ?_, ?_⟩
  · rw [createTrace, List.getLast?_concat]
  · intro step hstep
    rw [createTrace, List.dropLast_concat, List.mem_map] at hstep
    obtain ⟨⟨s, e⟩, hp, hstep⟩ := hstep
    rw [deliveries, List.mem_flatMap] at hp
    obtain ⟨ev, hev, hp⟩ := hp
    rw [List.mem_map] at hp
    obtain ⟨s1, hs1, hpeq⟩ := hp
    injection hpeq with h1 h2
    subst h2
    obtain ⟨t, hrec, hid⟩ := create_events_all_records st data ev hev
    refine ⟨s, t, ?_, hid⟩
    rw [← hstep, hrec]
  · intro hsubs
    obtain ⟨s0, subs', rfl⟩ := List.exists_cons_of_ne_nil hsubs
    obtain ⟨e0, evs', hevs⟩ := List.exists_cons_of_ne_nil (create_events_ne_nil st data)
    rw [createTrace, deliveries, hevs]
    obtain ⟨t, ht, _⟩ := create_events_all_records st data e0 (by rw [hevs]; exact List.mem_cons_self _ _)
    subst ht
    simp [noDeliveryBeforeReturn, isReturned, isDelivered]

/-- Witness for `create_c8`: with one subscriber, the delivery happens
before the return. -/
theorem create_c8_witness :
    noDeliveryBeforeReturn (createTrace [0] ⟨1, []⟩ {}) = false :=
  (create_c8 [0] ⟨1, []⟩ {}).2.2 (by decide)

/-- Counterexample to claim C8 as stated: with subscriber 0 registered,
`create {}` on a fresh store produces the trace
`[delivered, returned]` — the subscriber callback runs before `create`
returns, so "no subscriber callback runs before create returns" is
false. -/
theorem create_c8_cex :
    createTrace [0] ⟨1, []⟩ {}
      = [.delivered 0 (.record { id := .num 1, dismissible := some true }), .returned (.num 1)]
    ∧ noDeliveryBeforeReturn (createTrace [0] ⟨1, []⟩ {}) = false := by decide

/-- Helper: a `create` with no explicit id and a fresh counter appends a
new record and returns the counter id. -/
theorem create_of_fresh (st : StoreState) (data : CreateToastData) (hid : data.id = none)
    (hf : ∀ t ∈ st.toasts, t.id ≠ .num st.toastsCounter) :
    create st data = (⟨st.toastsCounter + 1,
        st.toasts ++ [newToastRecord data (.num st.toastsCounter) (data.dismissible.getD true)]⟩,
      [Event.record (newToastRecord data (.num st.toastsCounter) (data.dismissible.getD true))],
      .num st.toastsCounter) := by
  have hres : resolveId st.toastsCounter data.id = (.num st.toastsCounter, st.toastsCounter + 1) := by
    rw [hid]; rfl
  have hany : (st.toasts.any fun t => t.id = (resolveId st.toastsCounter data.id).1) = false := by
    rw [List.any_eq_false]
    intro t ht
    simp [hres, hf t ht]
  simp [create, hany, hres]
  intro x hx hxid
  exact absurd hxid (hf x hx)

/-- Helper: a `create` whose id matches exactly the last stored record
merges it in place and publishes the merged record once. -/
theorem create_of_single_match (st : StoreState) (data : CreateToastData) (pre : List ToastT)
    (r1 : ToastT) (i : ToastId)
    (hst : st.toasts = pre ++ [r1])
    (hres : resolveId st.toastsCounter data.id = (i, st.toastsCounter))
    (hpre : ∀ t ∈ pre, t.id ≠ i) (hr1 : r1.id = i) :
    create st data = (⟨st.toastsCounter,
        pre ++ [mergeStored r1 data i (data.dismissible.getD true)]⟩,
      [Event.record (mergePublished r1 data i)], i) := by
  have hany : (st.toasts.any fun t => t.id = (resolveId st.toastsCounter data.id).1) = true := by
    rw [hst, hres]
    simp only [List.any_append, List.any_cons, List.any_nil, Bool.or_eq_true]
    exact Or.inr (Or.inl (by simp [hr1]))
  have hmap : st.toasts.map (fun t =>
      if t.id = (resolveId st.toastsCounter data.id).1 then
        mergeStored t data (resolveId st.toastsCounter data.id).1 (data.dismissible.getD true)
      else t) = pre ++ [mergeStored r1 data i (data.dismissible.getD true)] := by
    rw [hst, hres, List.map_append]
    congr 1
    · rw [List.map_congr_left, List.map_id]
      intro t ht
      simp [hpre t ht]
    · simp [hr1]
  have hfm : st.toasts.filterMap (fun t =>
      if t.id = (resolveId st.toastsCounter data.id).1 then
        some (Event.record (mergePublished t data (resolveId st.toastsCounter data.id).1))
      else none) = [Event.record (mergePublished r1 data i)] := by
    rw [hst, hres, List.filterMap_append]
    have h1 : pre.filterMap (fun t =>
        if t.id = (i, st.toastsCounter).1 then
          some (Event.record (mergePublished t data (i, st.toastsCounter).1))
        else none) = [] := by
      rw [List.filterMap_eq_nil_iff]
      intro t ht
      simp [hpre t ht]
    rw [h1]
    simp [hr1]
  simp only [create, hany, if_true]
  rw [hmap, hfm, hres]

/-- Claim C4 (confirmed): with a fresh counter (no stored record uses the
next counter id, counter nonzero — invariants of the real module, whose
counter starts at 1 and only grows), `promise(f, {loading, success})`
resolving to a value that is neither an element nor a failing HTTP
response publishes exactly a loading-category create followed by a
success-category create with the same identifier and no dismiss signal;
and `promise(f, {loading})` with no `error` option rejecting publishes
exactly the loading create followed by the dismissal of that
identifier. -/
theorem promise_c4 (st : StoreState) (v : ResolvedValue) (estr : String)
    (L : Title) (S : PromiseResult) (sOptB eOptA dOpt : Option PromiseResult)
    (dm : Option Bool) (du : Option Int)
    (hf : ∀ t ∈ st.toasts, t.id ≠ .num st.toastsCounter)
    (hc : st.toastsCounter ≠ 0)
    (hv : isValidElement v = false)
    (hhttp : ∀ q : Int, v ≠ .httpResponse false q) :
    (∃ r1 r2 : ToastT,
      (promiseRun st
          (some { id := none, loading := some L, success := some S, error := eOptA,
                  description := dOpt, dismissible := dm, duration := du })
          (.resolved v)).2
        = [Event.record r1, Event.record r2]
      ∧ r1.type = some .loading ∧ r2.type = some .success ∧ r2.id = r1.id
      ∧ ∀ j, Event.dismissSignal j
          ∉ (promiseRun st
              (some { id := none, loading := some L, success := some S, error := eOptA,
                      description := dOpt, dismissible := dm, duration := du })
              (.resolved v)).2)
    ∧ (∃ r1 : ToastT,
      (promiseRun st
          (some { id := none, loading := some L, success := sOptB, error := none,
                  description := dOpt, dismissible := dm, duration := du })
          (.rejected estr)).2
        = [Event.record r1, Event.dismissSignal r1.id]
      ∧ r1.type = some .loading) := by
  have hcreate1 : ∀ dsc : Option Title, create st
      { id := none, message := some L, type := some ToastTypes.loading, description := dsc,
        dismissible := dm, duration := du }
      = (⟨st.toastsCounter + 1, st.toasts ++
          [newToastRecord
            { id := none, message := some L, type := some ToastTypes.loading,
              description := dsc, dismissible := dm, duration := du }
            (.num st.toastsCounter) (dm.getD true)]⟩,
        [Event.record (newToastRecord
          { id := none, message := some L, type := some ToastTypes.loading,
            description := dsc, dismissible := dm, duration := du }
          (.num st.toastsCounter) (dm.getD true))],
        .num st.toastsCounter) := fun dsc =>
    create_of_fresh st _ rfl hf
  constructor
  · rcases v with _ | ⟨ok, status⟩ | sv
    · exact absurd hv (by simp [isValidElement])
    · cases ok with
      | false => exact absurd rfl (hhttp status)
      | true =>
        have h2 := create_of_single_match
          ⟨st.toastsCounter + 1, st.toasts ++ [newToastRecord
              { id := none, message := some L, type := some ToastTypes.loading,
                description := constDescription dOpt, dismissible := dm, duration := du }
              (ToastId.num st.toastsCounter) (dm.getD true)]⟩
          { id := some (ToastId.num st.toastsCounter), type := some ToastTypes.success,
            message := some (resolveR S (.value (.httpResponse true status))),
            description := resolvePR dOpt (.value (.httpResponse true status)) }
          st.toasts
          (newToastRecord
            { id := none, message := some L, type := some ToastTypes.loading,
              description := constDescription dOpt, dismissible := dm, duration := du }
            (ToastId.num st.toastsCounter) (dm.getD true))
          (ToastId.num st.toastsCounter) rfl rfl hf rfl
        refine ⟨newToastRecord
            { id := none, message := some L, type := some ToastTypes.loading,
              description := constDescription dOpt, dismissible := dm, duration := du }
            (ToastId.num st.toastsCounter) (dm.getD true),
          mergePublished
            (newToastRecord
              { id := none, message := some L, type := some ToastTypes.loading,
                description := constDescription dOpt, dismissible := dm, duration := du }
              (ToastId.num st.toastsCounter) (dm.getD true))
            { id := some (ToastId.num st.toastsCounter), type := some ToastTypes.success,
              message := some (resolveR S (.value (.httpResponse true status))),
              description := resolvePR dOpt (.value (.httpResponse true status)) }
            (ToastId.num st.toastsCounter), ?_, rfl, rfl, rfl, ?_⟩
        · simp [promiseRun, hcreate1, h2, isValidElement]
        · intro j
          simp [promiseRun, hcreate1, h2, isValidElement]
    · have h2 := create_of_single_match
          ⟨st.toastsCounter + 1, st.toasts ++ [newToastRecord
              { id := none, message := some L, type := some ToastTypes.loading,
                description := constDescription dOpt, dismissible := dm, duration := du }
              (ToastId.num st.toastsCounter) (dm.getD true)]⟩
          { id := some (ToastId.num st.toastsCounter), type := some ToastTypes.success,
            message := some (resolveR S (.value (.plain sv))),
            description := resolvePR dOpt (.value (.plain sv)) }
          st.toasts
          (newToastRecord
            { id := none, message := some L, type := some ToastTypes.loading,
              description := constDescription dOpt, dismissible := dm, duration := du }
            (ToastId.num st.toastsCounter) (dm.getD true))
          (ToastId.num st.toastsCounter) rfl rfl hf rfl
      refine ⟨newToastRecord
          { id := none, message := some L, type := some ToastTypes.loading,
            description := constDescription dOpt, dismissible := dm, duration := du }
          (ToastId.num st.toastsCounter) (dm.getD true),
        mergePublished
          (newToastRecord
            { id := none, message := some L, type := some ToastTypes.loading,
              description := constDescription dOpt, dismissible := dm, duration := du }
            (ToastId.num st.toastsCounter) (dm.getD true))
          { id := some (ToastId.num st.toastsCounter), type := some ToastTypes.success,
            message := some (resolveR S (.value (.plain sv))),
            description := resolvePR dOpt (.value (.plain sv)) }
          (ToastId.num st.toastsCounter), ?_, rfl, rfl, rfl, ?_⟩
      · simp [promiseRun, hcreate1, h2, isValidElement]
      · intro j
        simp [promiseRun, hcreate1, h2, isValidElement]
  · refine ⟨newToastRecord
        { id := none, message := some L, type := some ToastTypes.loading,
          description := constDescription dOpt, dismissible := dm, duration := du }
        (ToastId.num st.toastsCounter) (dm.getD true), ?_, rfl⟩
    simp only [promiseRun, hcreate1]
    simp [dismissEvents, ToastId.truthy, hc]
    rfl

/-- Witness for `promise_c4`: the rejection scenario on an empty
store. -/
theorem promise_c4_witness :
    ∃ r1 : ToastT,
      (promiseRun ⟨1, []⟩
          (some { id := none, loading := some (.text "L"), success := none, error := none,
                  description := none, dismissible := none, duration := none })
          (.rejected "boom")).2
        = [Event.record r1, Event.dismissSignal r1.id]
      ∧ r1.type = some .loading :=
  (promise_c4 ⟨1, []⟩ (.plain "ok") "boom" (.text "L") (.const (.text "S")) none none none none none
    (by simp) (by decide) (by decide) (fun q => by simp)).2

/-- Counterexample to claim C9 as stated: the publish loop iterates the
live `Set`.  A subscriber (0) whose callback adds a new subscriber (2)
makes 2 receive the in-flight event, though the dispatch-start snapshot
was `[0, 1]`; and a subscriber removing not-yet-visited 1 makes 1 miss
the event although it was present at dispatch start.  Both directions of
the claimed snapshot semantics fail. -/
theorem dispatch_c9_cex :
    (dispatch 4 (fun s => if s = 0 then SubAction.add 2 else SubAction.pure) [0, 1] = [0, 1, 2]
      ∧ (2 : SubId) ∉ [0, 1])
    ∧ (dispatch 4 (fun s => if s = 0 then SubAction.remove 1 else SubAction.pure) [0, 1] = [0]
      ∧ (1 : SubId) ∈ [0, 1]
      ∧ (1 : SubId) ∉ dispatch 4 (fun s => if s = 0 then SubAction.remove 1 else SubAction.pure) [0, 1]) := by
  decide

/-- Claim C9 (corrected): publish dispatch follows live `Set` iteration,
for any three distinct subscribers: an earlier-visited callback adding a
new subscriber makes the newcomer receive the in-flight event (delivered
last); removing a not-yet-visited subscriber prevents its delivery; and
removing an already-visited subscriber leaves its delivery in place. -/
theorem dispatch_c9 (a b c : SubId) (hab : a ≠ b) (hac : a ≠ c) (hbc : b ≠ c) :
    dispatch 4 (fun s => if s = a then SubAction.add b else SubAction.pure) [a, c] = [a, c, b]
    ∧ dispatch 4 (fun s => if s = a then SubAction.remove c else SubAction.pure) [a, c] = [a]
    ∧ dispatch 4 (fun s => if s = a then SubAction.remove c else SubAction.pure) [c, a] = [c, a] := by
  refine ⟨?_, ?_, ?_⟩
  · simp [dispatch, dispatchGo, aliveIn, markDead, hab, hac, hbc,
      Ne.symm hab, Ne.symm hac, Ne.symm hbc]
  · simp [dispatch, dispatchGo, aliveIn, markDead, hab, hac, hbc,
      Ne.symm hab, Ne.symm hac, Ne.symm hbc]
  · simp [dispatch, dispatchGo, aliveIn, markDead, hab, hac, hbc,
      Ne.symm hab, Ne.symm hac, Ne.symm hbc]

/-- Witness for `dispatch_c9` at subscribers 0, 1, 2. -/
theorem dispatch_c9_witness :
    dispatch 4 (fun s => if s = 0 then SubAction.add 1 else SubAction.pure) [0, 2] = [0, 2, 1]
    ∧ dispatch 4 (fun s => if s = 0 then SubAction.remove 2 else SubAction.pure) [0, 2] = [0]
    ∧ dispatch 4 (fun s => if s = 0 then SubAction.remove 2 else SubAction.pure) [2, 0] = [2, 0] :=
  dispatch_c9 0 1 2 (by decide) (by decide) (by decide)
